import Mathlib

/-!
Verification of `project/manager_frontend/views/roms.py` (recalbox-manager).

The filesystem is embedded as an abstract directory state: a directory path
either resolves (exists, is a directory) or not, and when it resolves it
holds a list of entries, each carrying the attributes the Python code
queries (`os.path.isfile`, `os.path.isdir`, `os.path.getsize`).  Python
dictionaries (the manifest entries and the `RECALBOX_SYSTEM_DEFAULT`
template) are embedded as insertion-ordered association lists with
Python `dict.update` semantics.  Django's `Http404` and the `OSError`
raised by `os.listdir` on a missing path are the two error outcomes.
-/

namespace Recalbox

/-- A directory entry as observed through `os.listdir` plus the `os.path`
predicates the views apply to it. -/
structure Entry where
  name : String
  isFile : Bool
  isDir : Bool
  size : Nat
deriving DecidableEq, Repr

/-- The state of one directory path: whether `os.path.exists` and
`os.path.isdir` hold for it, and its entries when it is listable. -/
structure DirState where
  pathExists : Bool
  pathIsDir : Bool
  entries : List Entry
deriving DecidableEq, Repr

/-- The exceptions that can escape the view code: Django's `Http404`
(rendered as a 404 page) and an `OSError` escaping `os.listdir`
(rendered as an unhandled server error). -/
inductive PyError where
  | http404
  | osError
deriving DecidableEq, Repr

/-- A Python string-valued dict, as an insertion-ordered association list. -/
abbrev Dict := List (String × String)

/-- Association-list lookup, the embedding of Python `d[k]` / `k in d`. -/
def lookupField {α : Type} (l : List (String × α)) (k : String) : Option α :=
  (l.find? (fun p => p.1 == k)).map (fun p => p.2)

/-- Python `d[k] = v` on an insertion-ordered dict: replace in place when
the key is present, append otherwise. -/
def dictSet (d : Dict) (k v : String) : Dict :=
  if d.any (fun p => p.1 == k) then d.map (fun p => if p.1 == k then (k, v) else p)
  else d ++ [(k, v)]

/-- Python `d.update(upd)`: set every key of `upd` in order. -/
def dictUpdate (d : Dict) (upd : List (String × String)) : Dict :=
  upd.foldl (fun acc p => dictSet acc p.1 p.2) d

/-- The process-wide Django settings the views read:
`RECALBOX_MANIFEST` (system key to manifest entry) and
`RECALBOX_SYSTEM_DEFAULT` (the default manifest template). -/
structure Settings where
  manifest : List (String × Dict)
  system_default : Dict
deriving DecidableEq, Repr

/-- `os.listdir(path)`: the entries when the path is an existing
directory, an `OSError` otherwise. -/
def listdir (fs : DirState) : Except PyError (List Entry) :=
  if fs.pathExists && fs.pathIsDir then Except.ok fs.entries else Except.error PyError.osError

/-- Python `name.startswith('.')`: the first character is the hidden
marker. -/
def startsWithDot (s : String) : Bool :=
  match s.data with
  | [] => false
  | c :: _ => c == '.'

/-- The comparison `key=itemgetter(0)` hands to Python `sorted`:
compare pairs by their first (string) component. -/
def keyLe {β : Type} (a b : String × β) : Prop := a.1 ≤ b.1

instance {β : Type} : DecidableRel (@keyLe β) :=
  fun a b => inferInstanceAs (Decidable (a.1 ≤ b.1))

instance {β : Type} : IsTotal (String × β) (@keyLe β) := ⟨fun a b => le_total a.1 b.1⟩

instance {β : Type} : IsTrans (String × β) (@keyLe β) := ⟨fun _ _ _ => le_trans⟩

/-- Python `sorted(l, key=itemgetter(0))`: a stable sort on the first
component (Python `sorted` is stable, so any stable sort is the same
function of the input). -/
def sortByFst {β : Type} (l : List (String × β)) : List (String × β) :=
  List.insertionSort (@keyLe β) l

/-- Reading `entry['name']` from a manifest entry dict. -/
def getName (d : Dict) : String := (lookupField d "name").getD ""

/-- The pair `SystemsListView.get_system_list` appends for one directory
entry: `(item, manifest[item]['name'])` when the key is in
`RECALBOX_MANIFEST`, `(item, item)` otherwise. -/
def system_pair (st : Settings) (key : String) : String × String :=
  match lookupField st.manifest key with
  | some entry => (key, getName entry)
  | none => (key, key)

/-- `SystemsListView.get_system_list`: list the root ROMs path, keep the
non-hidden directories, pair each with its manifest display name, and
sort by key. -/
def get_system_list (st : Settings) (fs : DirState) : Except PyError (List (String × String)) :=
  match listdir fs with
  | Except.error e => Except.error e
  | Except.ok items =>
    Except.ok (sortByFst ((items.filter (fun e => e.isDir && !(startsWithDot e.name))).map
      (fun e => system_pair st e.name)))

/-- The body of `RomListView.get_rom_choices` once `os.listdir` has
returned: keep the non-hidden regular files, pair each name with its
size, and sort by filename. -/
def rom_choices_core (items : List Entry) : List (String × Nat) :=
  sortByFst ((items.filter (fun e => e.isFile && !(startsWithDot e.name))).map
    (fun e => (e.name, e.size)))

/-- `RomListView.get_rom_choices`: list the system path and build the
sorted (filename, size) pairs. -/
def get_rom_choices (fs : DirState) : Except PyError (List (String × Nat)) :=
  match listdir fs with
  | Except.error e => Except.error e
  | Except.ok items => Except.ok (rom_choices_core items)

/-- The per-request state `RomListView.init_system` leaves on the view:
the (possibly mutated) settings, the system key and the resolved system
manifest entry. -/
structure SystemCtx where
  settings : Settings
  system_key : String
  system_manifest : Dict
deriving DecidableEq, Repr

/-- `RomListView.init_system`: raise `Http404` when the system path does
not exist, is not a directory, or the key starts with `'.'`; otherwise
alias the `RECALBOX_SYSTEM_DEFAULT` dict, `update` it in place with the
key and name (this writes through the alias into the settings), and
resolve the system manifest via `RECALBOX_MANIFEST.get`. -/
def init_system (st : Settings) (fs : DirState) (system_key : String) : Except PyError SystemCtx :=
  if !fs.pathExists || !fs.pathIsDir || startsWithDot system_key then
    Except.error PyError.http404
  else
    let default_manifest := dictUpdate st.system_default [("key", system_key), ("name", system_key)]
    let st2 : Settings := { st with system_default := default_manifest }
    let system_manifest := (lookupField st.manifest system_key).getD default_manifest
    Except.ok { settings := st2, system_key := system_key, system_manifest := system_manifest }

/-- The data `RomListView.get_context_data` binds for the template on a
GET: the handled settings, the key, the display name and the rom
choices. -/
structure RomListPage where
  settings : Settings
  system_key : String
  system_name : String
  rom_choices : List (String × Nat)
deriving DecidableEq, Repr

/-- `RomListView.get`: `init_system` first, then render the listing page
(whose context evaluates `get_rom_choices`). -/
def rom_list_get (st : Settings) (fs : DirState) (key : String) : Except PyError RomListPage :=
  match init_system st fs key with
  | Except.error e => Except.error e
  | Except.ok ctx =>
    match get_rom_choices fs with
    | Except.error e => Except.error e
    | Except.ok roms =>
      Except.ok
        { settings := ctx.settings
          system_key := ctx.system_key
          system_name := getName ctx.system_manifest
          rom_choices := roms }

/-- `RomListView.post`: `init_system` first, then hand the per-request
context to the form-dispatch machinery (abstracted as `handler`). -/
def rom_list_post {α : Type} (st : Settings) (fs : DirState) (key : String)
    (handler : SystemCtx → Except PyError α) : Except PyError α :=
  match init_system st fs key with
  | Except.error e => Except.error e
  | Except.ok ctx => handler ctx

/-- `RomListView.get_delete_form_kwargs`: the `romchoices` handed to the
delete form are exactly `get_rom_choices()`. -/
def get_delete_form_kwargs (fs : DirState) : Except PyError (List (String × Nat)) :=
  get_rom_choices fs

/-- A concrete system directory: one rom, one hidden file, one nested
directory and one hidden directory. -/
def sampleRomDir : DirState :=
  { pathExists := true
    pathIsDir := true
    entries :=
      [ { name := "mario.smc", isFile := true, isDir := false, size := 1024 }
      , { name := ".hidden", isFile := true, isDir := false, size := 2 }
      , { name := "saves", isFile := false, isDir := true, size := 0 }
      , { name := ".git", isFile := false, isDir := true, size := 0 } ] }

/-- A concrete ROMs root holding two system directories and a stray file. -/
def sampleRootDir : DirState :=
  { pathExists := true
    pathIsDir := true
    entries :=
      [ { name := "snes", isFile := false, isDir := true, size := 0 }
      , { name := "gba", isFile := false, isDir := true, size := 0 }
      , { name := ".config", isFile := false, isDir := true, size := 0 }
      , { name := "notes.txt", isFile := true, isDir := false, size := 7 } ] }

/-- Concrete settings: one manifest entry for `snes` and a default
template with only a name. -/
def sampleSettings : Settings :=
  { manifest := [("snes", [("name", "Super Nintendo"), ("extensions", "smc sfc")])]
    system_default := [("name", "Unknown system")] }

/-- A root path that does not exist. -/
def missingRoot : DirState := { pathExists := false, pathIsDir := false, entries := [] }

/-- Python `sep.join(items)`. -/
def pyJoin (sep : String) : List String → String
  | [] => ""
  | [m] => m
  | m :: rest => m ++ sep ++ pyJoin sep rest

/-- `os.path.basename(p)`: the part of `p` after the last `'/'`. -/
def basename (p : String) : String :=
  String.mk ((p.data.reverse.takeWhile (fun c => c != '/')).reverse)

/-- One flash message recorded through `django.contrib.messages`. -/
structure FlashMessage where
  level : String
  text : String
deriving DecidableEq, Repr

/-- `RomListView.upload_form_valid`: after `form.save()` returned the
stored path, record a success message naming its basename. -/
def upload_form_valid_html (msgs : List FlashMessage) (uploaded_file : String) :
    List FlashMessage :=
  msgs ++ [{ level := "success", text := "File has been uploaded: " ++ basename uploaded_file }]

/-- `RomListView.delete_form_valid`: after `form.save()` returned the
deleted paths, record a success message joining their basenames with
a comma only when at least one file was deleted. -/
def delete_form_valid_html (msgs : List FlashMessage) (deleted_files : List String) :
    List FlashMessage :=
  if 0 < deleted_files.length then
    msgs ++ [{ level := "success",
               text := "Deleted file(s): " ++ pyJoin ", " (deleted_files.map basename) }]
  else msgs

/-- A Django `HttpResponse` as the JSON view builds it: status code,
content type, JSON object body (as key/value pairs) and extra headers. -/
structure HttpResponse where
  statusCode : Nat
  contentType : String
  body : List (String × String)
  headers : List (String × String)
deriving DecidableEq, Repr

/-- `RomUploadJsonView.json_response`: serialize the backend object,
set the JSON content type and the two cache-disabling headers.
`statusCode` is 200 for `HttpResponse` and 400 for
`HttpResponseBadRequest`. -/
def json_response (backend : List (String × String)) (statusCode : Nat) : HttpResponse :=
  { statusCode := statusCode
    contentType := "application/json; charset=utf-8"
    body := backend
    headers := [("Pragma", "no-cache"),
                ("Cache-Control", "no-cache, no-store, must-revalidate, max-age=0")] }

/-- `RomUploadJsonView.upload_form_valid`: save the form and return the
success JSON response for the Dropzone plugin. -/
def upload_form_valid_json (_uploaded_file : String) : HttpResponse :=
  json_response [("status", "success")] 200

/-- A bound Django form as `form_invalid` observes it: its `form_key`
and `errors.as_data()` as a field-to-messages map. -/
structure BoundForm where
  form_key : String
  errors : List (String × List String)
deriving DecidableEq, Repr

/-- The body of the `for form in args` loop of
`RomUploadJsonView.form_invalid`: only a form whose key is `upload`
contributes, and only through the messages of its `rom` field; more
than one message is joined with newlines, exactly one is kept as is,
none leaves the accumulator untouched. -/
def collect_rom_error (error_msg : String) (form : BoundForm) : String :=
  if form.form_key == "upload" then
    match lookupField form.errors "rom" with
    | some error_context =>
      if error_context.length > 1 then pyJoin "\n" error_context
      else if error_context.length == 1 then pyJoin "" error_context
      else error_msg
    | none => error_msg
  else error_msg

/-- `RomUploadJsonView.form_invalid`: fold the loop over the invalid
forms; if the collected message is non-empty it becomes the error body,
otherwise the default text does; the response is a
`HttpResponseBadRequest` (status 400) built by `json_response`. -/
def form_invalid (forms : List BoundForm) : HttpResponse :=
  let error_msg := forms.foldl collect_rom_error ""
  let forms_errors :=
    if error_msg == "" then [("error", "Unknow error occured")] else [("error", error_msg)]
  json_response forms_errors 400

/-- The media type of a content-type value: everything before the
parameter separator `';'`. -/
def mediaType (ct : String) : String :=
  String.mk (ct.data.takeWhile (fun c => c != ';'))

/-- The response properties claimed for every JSON response of the
upload view: both cache-disabling headers and the JSON content type. -/
def cacheHeadersOk (r : HttpResponse) : Prop :=
  lookupField r.headers "Pragma" = some "no-cache" ∧
  lookupField r.headers "Cache-Control" = some "no-cache, no-store, must-revalidate, max-age=0" ∧
  mediaType r.contentType = "application/json"

/-- Modelled from the spec: `RomDeleteForm` validation (the form class
in `forms/roms.py` is not under `src/`).  Spec 4.5: every selected name
must appear in the supplied rom choices; a name not found is a
validation error naming the unknown file. -/
def deleteValidate (romchoices : List (String × Nat)) (selected : List String) :
    Except String (List String) :=
  match selected.find? (fun s => !(romchoices.any (fun c => c.1 == s))) with
  | some s => Except.error s
  | none => Except.ok selected

/-- Modelled from the spec: the delete submission pipeline (spec 4.5),
with the choices taken from `RomListView.get_delete_form_kwargs`
(the current rom listing): on validation failure no deletion occurs and
the directory is untouched; on success the selected files are removed. -/
def delete_submission (fs : DirState) (selected : List String) :
    Except String (List String) × DirState :=
  match deleteValidate (rom_choices_core fs.entries) selected with
  | Except.error s => (Except.error s, fs)
  | Except.ok sel =>
    (Except.ok sel,
      { fs with entries := fs.entries.filter (fun e => !(sel.contains e.name)) })

lemma sortByFst_perm {β : Type} (l : List (String × β)) : (sortByFst l).Perm l :=
  List.perm_insertionSort (@keyLe β) l

lemma sortByFst_sorted {β : Type} (l : List (String × β)) :
    (sortByFst l).Pairwise (fun a b => a.1 ≤ b.1) :=
  List.sorted_insertionSort (@keyLe β) l

/-- C1: for every system directory that lists, `get_rom_choices` keeps
exactly the entries that are regular files whose name does not start
with `'.'`, pairs each kept filename with its byte size, and returns the
pairs sorted ascending by filename. -/
theorem rom_listing_files_sorted (fs : DirState)
    (h1 : fs.pathExists = true) (h2 : fs.pathIsDir = true) :
    ∃ l, get_rom_choices fs = Except.ok l ∧
      l.Pairwise (fun a b => a.1 ≤ b.1) ∧
      l.Perm ((fs.entries.filter (fun e => e.isFile && !(startsWithDot e.name))).map
        (fun e => (e.name, e.size))) := by
  refine ⟨rom_choices_core fs.entries, ?_, ?_, ?_⟩
  · simp [get_rom_choices, listdir, h1, h2]
  · exact sortByFst_sorted _
  · exact sortByFst_perm _

/-- Witness for C1 at a concrete directory. -/
theorem rom_listing_files_sorted_witness :
    (sampleRomDir.pathExists = true ∧ sampleRomDir.pathIsDir = true) ∧
    ∃ l, get_rom_choices sampleRomDir = Except.ok l ∧
      l.Pairwise (fun a b => a.1 ≤ b.1) ∧
      l.Perm ((sampleRomDir.entries.filter (fun e => e.isFile && !(startsWithDot e.name))).map
        (fun e => (e.name, e.size))) :=
  ⟨⟨rfl, rfl⟩, rom_listing_files_sorted sampleRomDir rfl rfl⟩

/-- C2: for every root directory that lists, `get_system_list` keeps
exactly the non-hidden directory entries, resolves each key through the
manifest (configured name when present, the key itself otherwise), and
returns the pairs sorted ascending by key. -/
theorem systems_listing_dirs_sorted (st : Settings) (fs : DirState)
    (h1 : fs.pathExists = true) (h2 : fs.pathIsDir = true) :
    ∃ l, get_system_list st fs = Except.ok l ∧
      l.Pairwise (fun a b => a.1 ≤ b.1) ∧
      l.Perm ((fs.entries.filter (fun e => e.isDir && !(startsWithDot e.name))).map
        (fun e => system_pair st e.name)) ∧
      (∀ key entry, lookupField st.manifest key = some entry →
        system_pair st key = (key, getName entry)) ∧
      (∀ key, lookupField st.manifest key = none → system_pair st key = (key, key)) := by
  refine ⟨_, ?_, sortByFst_sorted _, sortByFst_perm _, ?_, ?_⟩
  · simp [get_system_list, listdir, h1, h2]
  · intro key entry hk
    simp [system_pair, hk]
  · intro key hk
    simp [system_pair, hk]

/-- Witness for C2 at a concrete root and manifest. -/
theorem systems_listing_dirs_sorted_witness :
    (sampleRootDir.pathExists = true ∧ sampleRootDir.pathIsDir = true) ∧
    ∃ l, get_system_list sampleSettings sampleRootDir = Except.ok l ∧
      l.Pairwise (fun a b => a.1 ≤ b.1) ∧
      l.Perm ((sampleRootDir.entries.filter (fun e => e.isDir && !(startsWithDot e.name))).map
        (fun e => system_pair sampleSettings e.name)) ∧
      (∀ key entry, lookupField sampleSettings.manifest key = some entry →
        system_pair sampleSettings key = (key, getName entry)) ∧
      (∀ key, lookupField sampleSettings.manifest key = none →
        system_pair sampleSettings key = (key, key)) :=
  ⟨⟨rfl, rfl⟩, systems_listing_dirs_sorted sampleSettings sampleRootDir rfl rfl⟩

/-- C3: for every GET or POST to the rom-list view, if the system path
does not exist, or is not a directory, or the key starts with `'.'`, the
request fails with `Http404`; the outcome does not depend on the
directory's entries or on the POST form handler, so the check gates the
whole view before any listing. -/
theorem rom_view_hidden_or_missing_404 {α : Type} (st : Settings)
    (pe pid : Bool) (entries : List Entry) (key : String)
    (handler : SystemCtx → Except PyError α)
    (h : pe = false ∨ pid = false ∨ startsWithDot key = true) :
    rom_list_get st ⟨pe, pid, entries⟩ key = Except.error PyError.http404 ∧
    rom_list_post st ⟨pe, pid, entries⟩ key handler = Except.error PyError.http404 := by
  have h404 : init_system st ⟨pe, pid, entries⟩ key = Except.error PyError.http404 := by
    rcases h with h | h | h <;> simp [init_system, h]
  constructor
  · simp [rom_list_get, h404]
  · simp [rom_list_post, h404]

/-- Witness for C3: a hidden system key on an existing directory. -/
theorem rom_view_hidden_or_missing_404_witness :
    ((true : Bool) = false ∨ (true : Bool) = false ∨ startsWithDot ".emulationstation" = true) ∧
    (rom_list_get sampleSettings ⟨true, true, sampleRomDir.entries⟩ ".emulationstation"
        = Except.error PyError.http404 ∧
      rom_list_post sampleSettings ⟨true, true, sampleRomDir.entries⟩ ".emulationstation"
        (fun _ => Except.ok (0 : Nat)) = Except.error PyError.http404) :=
  ⟨Or.inr (Or.inr (by decide)),
    rom_view_hidden_or_missing_404 sampleSettings true true sampleRomDir.entries
      ".emulationstation" (fun _ => Except.ok (0 : Nat))
      (Or.inr (Or.inr (by decide)))⟩

/-- C4: evaluation at a concrete request showing that handling a
rom-list request for a key absent from the manifest mutates the
process-wide `RECALBOX_SYSTEM_DEFAULT` template in place:
`init_system` aliases the settings dict and `update`s it, so the
template read back after the request differs from the one installed at
startup. -/
theorem default_template_mutated_by_request :
    (init_system sampleSettings { pathExists := true, pathIsDir := true, entries := [] }
        "psx").map (fun ctx => ctx.settings.system_default)
      = Except.ok [("name", "psx"), ("key", "psx")] ∧
    (Except.ok [("name", "psx"), ("key", "psx")] : Except PyError Dict)
      ≠ Except.ok sampleSettings.system_default := by
  constructor
  · rfl
  · intro h
    simp [sampleSettings] at h

/-- C5 counterexample: at a root path that does not exist, the systems
listing surfaces the `OSError` escaping `os.listdir`, not an `Http404`. -/
theorem systems_listing_missing_root_counterexample :
    missingRoot.pathExists = false ∧
    get_system_list sampleSettings missingRoot = Except.error PyError.osError ∧
    get_system_list sampleSettings missingRoot ≠ Except.error PyError.http404 := by
  refine ⟨rfl, rfl, ?_⟩
  intro h
  simp [get_system_list, listdir, missingRoot] at h

/-- C5 amended: if the root ROMs path does not exist or is not a
directory, the systems listing fails with the unhandled filesystem error
from `os.listdir` (no `Http404` is raised on this path). -/
theorem systems_listing_missing_root_oserror (st : Settings) (fs : DirState)
    (h : fs.pathExists = false ∨ fs.pathIsDir = false) :
    get_system_list st fs = Except.error PyError.osError := by
  rcases h with h | h <;> simp [get_system_list, listdir, h]

/-- Witness for the amended C5 at a concrete missing root. -/
theorem systems_listing_missing_root_oserror_witness :
    (missingRoot.pathExists = false ∨ missingRoot.pathIsDir = false) ∧
    get_system_list sampleSettings missingRoot = Except.error PyError.osError :=
  ⟨Or.inl rfl, systems_listing_missing_root_oserror sampleSettings missingRoot (Or.inl rfl)⟩

lemma pyJoin_ne_empty (sep : String) (msgs : List String) (hm : msgs ≠ [])
    (hne : ∀ m ∈ msgs, m ≠ "") : pyJoin sep msgs ≠ "" := by
  match msgs, hm with
  | [m], _ => exact hne m (by simp)
  | m :: m2 :: r2, _ =>
    intro hc
    have hlen := congrArg String.length hc
    rw [show pyJoin sep (m :: m2 :: r2) = m ++ sep ++ pyJoin sep (m2 :: r2) from rfl] at hlen
    rw [String.length_append, String.length_append, String.length_empty] at hlen
    have hm0 : m.length = 0 := by omega
    apply hne m (by simp)
    cases m with
    | mk data =>
      rw [String.length_mk] at hm0
      exact congrArg String.mk (List.length_eq_zero.mp hm0)

lemma collect_rom_error_not_upload (acc : String) (g : BoundForm)
    (h : g.form_key ≠ "upload") : collect_rom_error acc g = acc := by
  simp [collect_rom_error, h]

lemma collect_rom_error_upload (acc : String) (g : BoundForm) (msgs : List String)
    (hk : g.form_key = "upload") (he : lookupField g.errors "rom" = some msgs)
    (hm : msgs ≠ []) : collect_rom_error acc g = pyJoin "\n" msgs := by
  match msgs, hm with
  | [m], _ => simp [collect_rom_error, hk, he, pyJoin]
  | m :: m2 :: r2, _ =>
    have hgt : (m :: m2 :: r2).length > 1 := by simp
    simp [collect_rom_error, hk, he, hgt]

lemma foldl_collect_rom_error (msgs : List String) (hm : msgs ≠ []) :
    ∀ forms : List BoundForm,
      (∀ g ∈ forms, g.form_key = "upload" → lookupField g.errors "rom" = some msgs) →
      ∀ acc : String, forms.foldl collect_rom_error acc =
        if forms.any (fun g => g.form_key == "upload") then pyJoin "\n" msgs else acc := by
  intro forms
  induction forms with
  | nil => intro _ acc; simp
  | cons g gs ih =>
    intro H acc
    rw [List.foldl_cons]
    by_cases hk : g.form_key = "upload"
    · rw [collect_rom_error_upload acc g msgs hk (H g (List.mem_cons_self g gs) hk) hm]
      rw [ih (fun x hx h2 => H x (List.mem_cons_of_mem g hx) h2) (pyJoin "\n" msgs)]
      simp [hk]
    · rw [collect_rom_error_not_upload acc g hk]
      rw [ih (fun x hx h2 => H x (List.mem_cons_of_mem g hx) h2) acc]
      simp [hk]

lemma collect_rom_error_noop (acc : String) (g : BoundForm)
    (h : g.form_key = "upload" →
      lookupField g.errors "rom" = none ∨ lookupField g.errors "rom" = some []) :
    collect_rom_error acc g = acc := by
  by_cases hk : g.form_key = "upload"
  · rcases h hk with he | he <;> simp [collect_rom_error, hk, he]
  · exact collect_rom_error_not_upload acc g hk

lemma foldl_collect_rom_error_noop :
    ∀ forms : List BoundForm,
      (∀ g ∈ forms, g.form_key = "upload" →
        lookupField g.errors "rom" = none ∨ lookupField g.errors "rom" = some []) →
      ∀ acc : String, forms.foldl collect_rom_error acc = acc := by
  intro forms
  induction forms with
  | nil => intro _ _; rfl
  | cons g gs ih =>
    intro H acc
    rw [List.foldl_cons, collect_rom_error_noop acc g (H g (List.mem_cons_self g gs))]
    exact ih (fun x hx => H x (List.mem_cons_of_mem g hx)) acc

/-- C6: a programmatic (AJAX) upload POST answers with the JSON object
with field `status` set to `success` when the upload form validates,
and on validation failure with a 400 response whose JSON body has field
`error` set to the single or newline-joined message(s) of the upload
form's `rom` field; the errors of every other form and field do not
influence the response. -/
theorem json_upload_success_and_error (f : String) (forms : List BoundForm)
    (msgs : List String) (hm : msgs ≠ []) (hne : ∀ m ∈ msgs, m ≠ "")
    (hup : forms.any (fun g => g.form_key == "upload") = true)
    (H : ∀ g ∈ forms, g.form_key = "upload" → lookupField g.errors "rom" = some msgs) :
    upload_form_valid_json f = json_response [("status", "success")] 200 ∧
    form_invalid forms = json_response [("error", pyJoin "\n" msgs)] 400 := by
  constructor
  · rfl
  · have hfold := foldl_collect_rom_error msgs hm forms H ""
    rw [hup, if_pos rfl] at hfold
    have hJ : pyJoin "\n" msgs ≠ "" := pyJoin_ne_empty "\n" msgs hm hne
    simp [form_invalid, hfold, hJ]

/-- Witness for C6: a single invalid upload form carrying one message
on the `rom` field. -/
theorem json_upload_success_and_error_witness :
    ((["This field is required."] : List String) ≠ [] ∧
      (∀ m ∈ (["This field is required."] : List String), m ≠ "") ∧
      ([BoundForm.mk "upload" [("rom", ["This field is required."])]].any
        (fun g => g.form_key == "upload") = true) ∧
      (∀ g ∈ [BoundForm.mk "upload" [("rom", ["This field is required."])]],
        g.form_key = "upload" →
          lookupField g.errors "rom" = some ["This field is required."])) ∧
    (upload_form_valid_json "mario.smc" = json_response [("status", "success")] 200 ∧
      form_invalid [BoundForm.mk "upload" [("rom", ["This field is required."])]] =
        json_response [("error", pyJoin "\n" ["This field is required."])] 400) :=
  ⟨⟨by decide, by decide, by decide, by decide⟩,
    json_upload_success_and_error "mario.smc"
      [BoundForm.mk "upload" [("rom", ["This field is required."])]]
      ["This field is required."] (by decide) (by decide) (by decide) (by decide)⟩

/-- C7: every response built by the JSON upload view (the generic
`json_response`, the success response and the error response alike)
carries `Pragma: no-cache` and
`Cache-Control: no-cache, no-store, must-revalidate, max-age=0` and has
media type `application/json`. -/
theorem json_view_cache_headers (f : String) (forms : List BoundForm)
    (backend : List (String × String)) (sc : Nat) :
    cacheHeadersOk (json_response backend sc) ∧
    cacheHeadersOk (upload_form_valid_json f) ∧
    cacheHeadersOk (form_invalid forms) :=
  ⟨⟨rfl, rfl, rfl⟩, ⟨rfl, rfl, rfl⟩, ⟨rfl, rfl, rfl⟩⟩

/-- C9: when no message is attached to the `rom` field of any upload
form among the invalid forms (in particular when no upload form is
there at all), the JSON error body has its `error` field set to the
fallback text `Unknow error occured` and the status is 400. -/
theorem json_upload_unknown_error (forms : List BoundForm)
    (H : ∀ g ∈ forms, g.form_key = "upload" →
      lookupField g.errors "rom" = none ∨ lookupField g.errors "rom" = some []) :
    (form_invalid forms).body = [("error", "Unknow error occured")] ∧
    (form_invalid forms).statusCode = 400 := by
  have h := foldl_collect_rom_error_noop forms H ""
  constructor
  · simp [form_invalid, h, json_response]
  · simp [form_invalid, h, json_response]

/-- Witness for C9: the only invalid form is the delete form, so no
`rom` message exists. -/
theorem json_upload_unknown_error_witness :
    (∀ g ∈ [BoundForm.mk "delete" [("roms", ["Select a valid choice."])]],
      g.form_key = "upload" →
        lookupField g.errors "rom" = none ∨ lookupField g.errors "rom" = some []) ∧
    ((form_invalid [BoundForm.mk "delete" [("roms", ["Select a valid choice."])]]).body
        = [("error", "Unknow error occured")] ∧
      (form_invalid [BoundForm.mk "delete" [("roms", ["Select a valid choice."])]]).statusCode
        = 400) :=
  ⟨by decide,
    json_upload_unknown_error [BoundForm.mk "delete" [("roms", ["Select a valid choice."])]]
      (by decide)⟩

/-- C8: a delete submission naming a file outside the current rom
listing is rejected: the choices handed to the delete form are exactly
the current rom listing, the result is a validation error naming an
unknown selected file, and the directory state is unchanged. -/
theorem delete_unknown_file_rejected (fs : DirState) (selected : List String)
    (h1 : fs.pathExists = true) (h2 : fs.pathIsDir = true)
    (h : ∃ s ∈ selected, ∀ c ∈ rom_choices_core fs.entries, c.1 ≠ s) :
    get_delete_form_kwargs fs = Except.ok (rom_choices_core fs.entries) ∧
    ∃ s, (delete_submission fs selected).1 = Except.error s ∧
      s ∈ selected ∧ (∀ c ∈ rom_choices_core fs.entries, c.1 ≠ s) ∧
      (delete_submission fs selected).2 = fs := by
  constructor
  · simp [get_delete_form_kwargs, get_rom_choices, listdir, h1, h2]
  · have hsome :
        (selected.find? (fun s => !((rom_choices_core fs.entries).any (fun c => c.1 == s)))).isSome := by
      rw [List.find?_isSome]
      obtain ⟨s, hs, hall⟩ := h
      refine ⟨s, hs, ?_⟩
      simp only [Bool.not_eq_true', List.any_eq_false]
      intro x hx
      simpa using hall x hx
    obtain ⟨s0, hfind⟩ := Option.isSome_iff_exists.mp hsome
    have hps := List.find?_some hfind
    have hmem := List.mem_of_find?_eq_some hfind
    refine ⟨s0, ?_, hmem, ?_, ?_⟩
    · simp [delete_submission, deleteValidate, hfind]
    · intro c hc
      simp only [Bool.not_eq_true', List.any_eq_false] at hps
      simpa using hps c hc
    · simp [delete_submission, deleteValidate, hfind]

/-- Witness for C8: deleting `zelda.smc` from a directory that only
lists `mario.smc`. -/
theorem delete_unknown_file_rejected_witness :
    (sampleRomDir.pathExists = true ∧ sampleRomDir.pathIsDir = true ∧
      ∃ s ∈ (["zelda.smc"] : List String),
        ∀ c ∈ rom_choices_core sampleRomDir.entries, c.1 ≠ s) ∧
    (get_delete_form_kwargs sampleRomDir = Except.ok (rom_choices_core sampleRomDir.entries) ∧
      ∃ s, (delete_submission sampleRomDir ["zelda.smc"]).1 = Except.error s ∧
        s ∈ (["zelda.smc"] : List String) ∧
        (∀ c ∈ rom_choices_core sampleRomDir.entries, c.1 ≠ s) ∧
        (delete_submission sampleRomDir ["zelda.smc"]).2 = sampleRomDir) :=
  ⟨⟨rfl, rfl, by decide⟩,
    delete_unknown_file_rejected sampleRomDir ["zelda.smc"] rfl rfl (by decide)⟩

/-- C10: in HTML mode the delete handler records a success flash
message exactly when at least one file was deleted, that message lists
the basenames of the deleted files joined by a comma and a space, and
the upload handler always records a success message carrying the
basename of the stored file. -/
theorem flash_messages_on_success (msgs : List FlashMessage)
    (deleted_files : List String) (f : String) :
    (delete_form_valid_html msgs deleted_files ≠ msgs ↔ deleted_files ≠ []) ∧
    (deleted_files ≠ [] →
      delete_form_valid_html msgs deleted_files =
        msgs ++ [{ level := "success",
                   text := "Deleted file(s): " ++ pyJoin ", " (deleted_files.map basename) }]) ∧
    upload_form_valid_html msgs f =
      msgs ++ [{ level := "success", text := "File has been uploaded: " ++ basename f }] := by
  refine ⟨?_, ?_, rfl⟩
  · by_cases hd : deleted_files = []
    · subst hd
      simp [delete_form_valid_html]
    · have hlen : 0 < deleted_files.length := List.length_pos.mpr hd
      simp only [delete_form_valid_html, if_pos hlen]
      constructor
      · intro _
        exact hd
      · intro _ hc
        have hlc := congrArg List.length hc
        simp at hlc
  · intro hd
    have hlen : 0 < deleted_files.length := List.length_pos.mpr hd
    simp [delete_form_valid_html, hlen]

/-- Witness for C10 at concrete paths. -/
theorem flash_messages_on_success_witness :
    ((["/recalbox/roms/snes/mario.smc", "zelda.smc"] : List String) ≠ []) ∧
    delete_form_valid_html [] ["/recalbox/roms/snes/mario.smc", "zelda.smc"] =
      [] ++ [{ level := "success",
               text := "Deleted file(s): " ++
                 pyJoin ", " ((["/recalbox/roms/snes/mario.smc", "zelda.smc"]).map basename) }] ∧
    upload_form_valid_html [] "/tmp/upload/metroid.smc" =
      [] ++ [{ level := "success",
               text := "File has been uploaded: " ++ basename "/tmp/upload/metroid.smc" }] :=
  ⟨by decide,
    (flash_messages_on_success [] ["/recalbox/roms/snes/mario.smc", "zelda.smc"]
      "/tmp/upload/metroid.smc").2.1 (by decide),
    (flash_messages_on_success [] ["/recalbox/roms/snes/mario.smc", "zelda.smc"]
      "/tmp/upload/metroid.smc").2.2⟩

end Recalbox
